import Mathlib

/-!
Shallow embedding of the mood-tracking frontend's chart-aggregation and
recommendation logic, and of the mood context reducer.

Sources embedded here:
* `processChartData` (Dashboard): groups mood entries by ISO date key,
  averages the per-day mood scores, and pads the result to the trailing
  7-day window ending today, synthesizing label-only buckets for days
  without data.
* `getMoodPlaylistName` / `getMoodMovieGenre` (Dashboard): static
  mood-label lookups with a `|| default` fallback.
* `moodReducer` (MoodContext.jsx): a switch on the action-type string over
  seven recognized action types, with a default branch returning the state.

Modelling conventions:
* Timestamps are modelled at calendar-day granularity as days since the
  Unix epoch (`Nat`), in one fixed reference frame; `isoDateKey` renders
  the `toISOString().split('T')[0]` key and `weekdayShort`/`monthDayLabel`
  the `toLocaleDateString('en-US', ...)` display labels via the standard
  Gregorian days-to-civil conversion.
* Averages are exact rationals (`Rat`) in place of IEEE doubles; every
  average computed here is a sum of small naturals divided by a count, so
  the arithmetic used by the claims is exact in both.
* A JavaScript object field that a code path leaves absent is an `Option`
  that is `none` on that path; `jsOrNat`/`jsOrStr` model the `x || d`
  fallback including JS falsiness of `0` and of the empty string.
-/

namespace MoodTracker

/-- JS `x || d` for an optionally-present number: `undefined` and `0` are falsy. -/
def jsOrNat (x : Option Nat) (d : Nat) : Nat :=
  match x with
  | some v => if v = 0 then d else v
  | none => d

/-- JS `x || d` for an optionally-present string: `undefined` and `""` are falsy. -/
def jsOrStr (x : Option String) (d : String) : String :=
  match x with
  | some v => if v = "" then d else v
  | none => d

/-! ### Calendar rendering (epoch days to civil date, keys and labels) -/

/-- Gregorian civil date `(year, month, day)` from days since 1970-01-01,
using the standard era/day-of-era conversion (valid for all days ≥ epoch). -/
def civilFromDays (z₀ : Nat) : Nat × Nat × Nat :=
  let z := z₀ + 719468
  let era := z / 146097
  let doe := z % 146097
  let yoe := (doe - doe / 1460 + doe / 36524 - doe / 146096) / 365
  let doy := doe - (365 * yoe + yoe / 4 - yoe / 100)
  let mp := (5 * doy + 2) / 153
  let d := doy - (153 * mp + 2) / 5 + 1
  let m := if mp < 10 then mp + 3 else mp - 9
  (yoe + era * 400 + (if m ≤ 2 then 1 else 0), m, d)

/-- Two-digit zero padding, as in ISO date components. -/
def pad2 (n : Nat) : String :=
  if n < 10 then "0" ++ toString n else toString n

/-- Four-digit zero padding for the year component. -/
def pad4 (n : Nat) : String :=
  if n < 10 then "000" ++ toString n
  else if n < 100 then "00" ++ toString n
  else if n < 1000 then "0" ++ toString n
  else toString n

/-- The `YYYY-MM-DD` date key: `new Date(...).toISOString().split('T')[0]`. -/
def isoDateKey (day : Nat) : String :=
  match civilFromDays day with
  | (y, m, d) => pad4 y ++ "-" ++ pad2 m ++ "-" ++ pad2 d

/-- Short weekday label, `toLocaleDateString('en-US', { weekday: 'short' })`;
1970-01-01 was a Thursday. -/
def weekdayShort (day : Nat) : String :=
  ["Thu", "Fri", "Sat", "Sun", "Mon", "Tue", "Wed"].getD (day % 7) ""

/-- Short month name for a 1-based month number. -/
def monthShort (m : Nat) : String :=
  ["Jan", "Feb", "Mar", "Apr", "May", "Jun",
   "Jul", "Aug", "Sep", "Oct", "Nov", "Dec"].getD (m - 1) ""

/-- The `Mon D` display label, `toLocaleDateString('en-US', { month: 'short', day: 'numeric' })`. -/
def monthDayLabel (day : Nat) : String :=
  match civilFromDays day with
  | (_, m, d) => monthShort m ++ " " ++ toString d

/-! ### Chart pipeline data model -/

/-- A mood entry as consumed by `processChartData`: a mood label and the
calendar day of its timestamp. -/
structure MoodEntry where
  mood : String
  date : Nat
deriving DecidableEq

/-- One per-day chart bucket. `moods` is `none` where the source object has
no `moods` field at all (the synthesized empty-day buckets omit it). -/
structure DayBucket where
  day : String
  date : String
  dateKey : String
  moods : Option (List Nat)
  avgMood : Rat
deriving DecidableEq

/-- The score table `const moodValues = { happy: 5, calm: 4, neutral: 3, sad: 2, angry: 1 }`. -/
def moodValues : List (String × Nat) :=
  [("happy", 5), ("calm", 4), ("neutral", 3), ("sad", 2), ("angry", 1)]

/-- JS object property access: first binding for the key, if any. -/
def lookupKey {α : Type} (k : String) : List (String × α) → Option α
  | [] => none
  | (k₂, v) :: rest => if k₂ = k then some v else lookupKey k rest

/-- The per-entry mood score `moodValues[mood.mood] || 3`. -/
def scoreOf (mood : String) : Nat :=
  jsOrNat (lookupKey mood moodValues) 3

/-- The grouping key of an entry: its ISO calendar-date key. -/
def entryKey (e : MoodEntry) : String :=
  isoDateKey e.date

/-- The push step `dailyData[dateKey].moods.push(score)`. -/
def pushMood (b : DayBucket) (s : Nat) : DayBucket :=
  { b with moods := some (b.moods.getD [] ++ [s]) }

/-- One step of the grouping loop: ensure a bucket exists for the entry's
date key (created with that day's labels and an empty `moods` list), then
push the entry's score onto it. -/
def insertMood (acc : List (String × DayBucket)) (e : MoodEntry) : List (String × DayBucket) :=
  if (lookupKey (entryKey e) acc).isSome then
    acc.map (fun p => if p.1 = entryKey e then (p.1, pushMood p.2 (scoreOf e.mood)) else p)
  else
    acc ++ [(entryKey e,
      { day := weekdayShort e.date, date := monthDayLabel e.date,
        dateKey := entryKey e, moods := some [scoreOf e.mood], avgMood := 0 })]

/-- The averaging pass: `day.avgMood = day.moods.reduce((a,b) => a+b, 0) / day.moods.length`. -/
def computeAverages (l : List (String × DayBucket)) : List (String × DayBucket) :=
  l.map (fun p =>
    (p.1, { p.2 with avgMood := ((p.2.moods.getD []).sum : Rat) / ((p.2.moods.getD []).length : Rat) }))

/-- The daily aggregation: group entries by date key in first-seen order,
then compute each bucket's average (the `dailyData` construction). -/
def aggregate (entries : List MoodEntry) : List (String × DayBucket) :=
  computeAverages (entries.foldl insertMood [])

/-- The seven window days `today - i` for `i = 6, 5, ..., 0`. -/
def windowDays (today : Nat) : List Nat :=
  (List.range 7).map (fun j => today - (6 - j))

/-- One emitted window bucket: the aggregated bucket for the day's key when
present, else a synthesized bucket with that day's labels, `avgMood = 0`
and no `moods` field. -/
def mkWindowBucket (dailyData : List (String × DayBucket)) (day : Nat) : DayBucket :=
  match lookupKey (isoDateKey day) dailyData with
  | some b => b
  | none =>
      { day := weekdayShort day, date := monthDayLabel day,
        dateKey := isoDateKey day, moods := none, avgMood := 0 }

/-- The `last7Days` loop: one bucket per window day, oldest first. -/
def buildWindow (dailyData : List (String × DayBucket)) (today : Nat) : List DayBucket :=
  (windowDays today).map (mkWindowBucket dailyData)

/-- The SWR range response consumed by `processChartData`. -/
structure RangeResponse where
  success : Bool
  data : Option (List MoodEntry)
deriving DecidableEq

/-- Top-level `processChartData`: empty chart on a missing/failed/empty response,
otherwise aggregate the entries and pad to the 7-day window ending today. -/
def processChartData (resp : Option RangeResponse) (today : Nat) : List DayBucket :=
  match resp with
  | none => []
  | some r =>
      if r.success then
        match r.data with
        | none => []
        | some entries =>
            if entries.length = 0 then []
            else buildWindow (aggregate entries) today
      else []

/-! ### Recommendation lookups -/

/-- The static mood-to-playlist-name table in `getMoodPlaylistName`. -/
def playlistNames : List (String × String) :=
  [("happy", "Happy Vibes"), ("calm", "Calm Acoustic"), ("sad", "Melancholic Mood"),
   ("angry", "Intense Energy"), ("neutral", "Chill Vibes")]

/-- The lookup `getMoodPlaylistName(mood) = playlistNames[mood] || 'Your Playlist'`. -/
def getMoodPlaylistName (mood : String) : String :=
  jsOrStr (lookupKey mood playlistNames) "Your Playlist"

/-- The static mood-to-movie-genre table in `getMoodMovieGenre`. -/
def genreNames : List (String × String) :=
  [("happy", "Comedy"), ("calm", "Animation"), ("sad", "Drama"),
   ("angry", "Action"), ("neutral", "Documentary")]

/-- The lookup `getMoodMovieGenre(mood) = genreNames[mood] || 'Movies'`. -/
def getMoodMovieGenre (mood : String) : String :=
  jsOrStr (lookupKey mood genreNames) "Movies"

/-! ### Mood context reducer -/

/-- The five MUI theme objects of `themes.js`, identified by mood. -/
inductive Theme where
  | happy | calm | sad | angry | neutral
deriving DecidableEq

/-- The table `export const themes = { happy, calm, sad, angry, neutral }`. -/
def themes : List (String × Theme) :=
  [("happy", Theme.happy), ("calm", Theme.calm), ("sad", Theme.sad),
   ("angry", Theme.angry), ("neutral", Theme.neutral)]

/-- The fallback `export const defaultTheme = neutralTheme`. -/
def defaultTheme : Theme := Theme.neutral

/-- A user object stored by `SET_USER`; its contents are opaque to the reducer. -/
structure UserObj where
  id : String
deriving DecidableEq

/-- A recommendation item stored by `SET_RECOMMENDATIONS`; opaque to the reducer. -/
structure Recommendation where
  id : String
deriving DecidableEq

/-- A mood record dispatched by `SET_TODAY_MOOD`; the reducer reads only `.mood`. -/
structure MoodRecord where
  mood : String
deriving DecidableEq

/-- The `preferences` slice of the context state. -/
structure Preferences where
  activityTypes : List String
  darkMode : Bool
deriving DecidableEq

/-- A partial preferences object for `UPDATE_PREFERENCES` (spread-merged). -/
structure PreferencesPatch where
  activityTypes : Option (List String)
  darkMode : Option Bool
deriving DecidableEq

/-- Spread merge `{ ...prefs, ...patch }`: per-field override where the patch has the key. -/
def mergePreferences (prefs : Preferences) (patch : PreferencesPatch) : Preferences :=
  { activityTypes := patch.activityTypes.getD prefs.activityTypes,
    darkMode := patch.darkMode.getD prefs.darkMode }

/-- The mood context state. -/
structure MoodState where
  currentUser : Option UserObj
  currentMood : Option MoodRecord
  currentTheme : Theme
  recommendations : List Recommendation
  preferences : Preferences
deriving DecidableEq

/-- The `initialState` object of MoodContext.jsx. -/
def initialState : MoodState :=
  { currentUser := none, currentMood := none, currentTheme := defaultTheme,
    recommendations := [], preferences := { activityTypes := [], darkMode := false } }

/-- Action payloads, one shape per action creator (`RESET` dispatches none).
The app always pairs an action type with its own payload shape. -/
inductive Payload where
  | user (u : Option UserObj)
  | moodRecord (m : Option MoodRecord)
  | theme (t : Theme)
  | recs (r : List Recommendation)
  | prefs (p : Preferences)
  | prefsPatch (p : PreferencesPatch)
  | nullPayload
deriving DecidableEq

/-- A dispatched action: a type string and a payload. -/
structure Action where
  type : String
  payload : Payload
deriving DecidableEq

/-- The reducer `moodReducer`: a switch on `action.type` over the seven recognized
action-type strings; the default branch returns the state unchanged. The
inner payload matches are the identity cases for payload shapes the app
never pairs with that type. -/
def moodReducer (state : MoodState) (action : Action) : MoodState :=
  if action.type = "SET_USER" then
    match action.payload with
    | Payload.user u => { state with currentUser := u }
    | _ => state
  else if action.type = "SET_TODAY_MOOD" then
    match action.payload with
    | Payload.moodRecord p =>
        let moodTheme :=
          match p with
          | some m => (lookupKey m.mood themes).getD defaultTheme
          | none => defaultTheme
        { state with currentMood := p, currentTheme := moodTheme }
    | _ => state
  else if action.type = "SET_THEME" then
    match action.payload with
    | Payload.theme t => { state with currentTheme := t }
    | _ => state
  else if action.type = "SET_RECOMMENDATIONS" then
    match action.payload with
    | Payload.recs r => { state with recommendations := r }
    | _ => state
  else if action.type = "SET_PREFERENCES" then
    match action.payload with
    | Payload.prefs p => { state with preferences := p }
    | _ => state
  else if action.type = "UPDATE_PREFERENCES" then
    match action.payload with
    | Payload.prefsPatch p => { state with preferences := mergePreferences state.preferences p }
    | _ => state
  else if action.type = "RESET" then initialState
  else state

/-! ### Helper lemmas -/

lemma lookupKey_mem {α : Type} {k : String} {l : List (String × α)} {v : α}
    (h : lookupKey k l = some v) : (k, v) ∈ l := by
  induction l with
  | nil => simp [lookupKey] at h
  | cons p rest ih =>
      obtain ⟨a, b⟩ := p
      simp only [lookupKey] at h
      by_cases hak : a = k
      · subst hak
        rw [if_pos rfl] at h
        injection h with h
        subst h
        exact List.mem_cons_self _ _
      · rw [if_neg hak] at h
        exact List.mem_cons_of_mem _ (ih h)

lemma lookupKey_eq_none {α : Type} {k : String} {l : List (String × α)}
    (h : ∀ p ∈ l, p.1 ≠ k) : lookupKey k l = none := by
  induction l with
  | nil => rfl
  | cons p rest ih =>
      obtain ⟨a, b⟩ := p
      simp only [lookupKey]
      rw [if_neg (h (a, b) (List.mem_cons_self _ _))]
      exact ih (fun q hq => h q (List.mem_cons_of_mem _ hq))

lemma scoreOf_bounds (s : String) : 1 ≤ scoreOf s ∧ scoreOf s ≤ 5 := by
  unfold scoreOf jsOrNat
  cases h : lookupKey s moodValues with
  | none => simp
  | some v =>
      have hv : (s, v) ∈ moodValues := lookupKey_mem h
      simp only [moodValues, List.mem_cons, List.not_mem_nil, or_false, Prod.mk.injEq] at hv
      rcases hv with ⟨_, rfl⟩ | ⟨_, rfl⟩ | ⟨_, rfl⟩ | ⟨_, rfl⟩ | ⟨_, rfl⟩ <;> simp

lemma map_fst_update (k : String) (s : Nat) (acc : List (String × DayBucket)) :
    (acc.map (fun p => if p.1 = k then (p.1, pushMood p.2 s) else p)).map Prod.fst
      = acc.map Prod.fst := by
  induction acc with
  | nil => rfl
  | cons p rest ih => by_cases hp : p.1 = k <;> simp [hp, ih]

/-- Keys of the grouping accumulator after one insertion. -/
lemma insertMood_keys (acc : List (String × DayBucket)) (e : MoodEntry) :
    (insertMood acc e).map Prod.fst = acc.map Prod.fst ∨
    (insertMood acc e).map Prod.fst = acc.map Prod.fst ++ [entryKey e] := by
  unfold insertMood
  split
  · exact Or.inl (map_fst_update (entryKey e) (scoreOf e.mood) acc)
  · right
    simp

lemma foldl_insertMood_keys (l : List MoodEntry) (acc : List (String × DayBucket)) (k : String)
    (hk : k ∈ (l.foldl insertMood acc).map Prod.fst) :
    k ∈ acc.map Prod.fst ∨ ∃ e ∈ l, entryKey e = k := by
  induction l generalizing acc with
  | nil => exact Or.inl hk
  | cons e rest ih =>
      rw [List.foldl_cons] at hk
      rcases ih (insertMood acc e) hk with h | h
      · rcases insertMood_keys acc e with hke | hke
        · exact Or.inl (hke ▸ h)
        · rw [hke, List.mem_append] at h
          rcases h with h | h
          · exact Or.inl h
          · simp at h
            exact Or.inr ⟨e, List.mem_cons_self _ _, h.symm⟩
      · obtain ⟨e₂, he₂, hke₂⟩ := h
        exact Or.inr ⟨e₂, List.mem_cons_of_mem _ he₂, hke₂⟩

/-- A date key mentioned by no entry is absent from the aggregation. -/
lemma lookupKey_aggregate_none (entries : List MoodEntry) (k : String)
    (h : ∀ e ∈ entries, entryKey e ≠ k) : lookupKey k (aggregate entries) = none := by
  apply lookupKey_eq_none
  intro p hp hpk
  unfold aggregate computeAverages at hp
  rw [List.mem_map] at hp
  obtain ⟨q, hq, hpq⟩ := hp
  have hq1 : q.1 = k := by rw [← hpq] at hpk; exact hpk
  have hmem : k ∈ ((entries.foldl insertMood []).map Prod.fst) :=
    hq1 ▸ List.mem_map_of_mem Prod.fst hq
  rcases foldl_insertMood_keys entries [] k hmem with hmem | ⟨e, he, hke⟩
  · simp at hmem
  · exact h e he hke

/-- Invariant of the raw (pre-averaging) grouping accumulator. -/
def AggRawInv (acc : List (String × DayBucket)) : Prop :=
  ∀ p ∈ acc, p.2.dateKey = p.1 ∧
    ∃ l, p.2.moods = some l ∧ l ≠ [] ∧ ∀ x ∈ l, 1 ≤ x ∧ x ≤ 5

lemma insertMood_inv {acc : List (String × DayBucket)} (e : MoodEntry)
    (h : AggRawInv acc) : AggRawInv (insertMood acc e) := by
  unfold insertMood
  split
  · intro p hp
    rw [List.mem_map] at hp
    obtain ⟨q, hq, hpq⟩ := hp
    obtain ⟨hk, l, hm, hne, hb⟩ := h q hq
    by_cases hqk : q.1 = entryKey e
    · rw [if_pos hqk] at hpq
      subst hpq
      refine ⟨hk, l ++ [scoreOf e.mood], ?_, by simp, ?_⟩
      · simp [pushMood, hm]
      · intro x hx
        rcases List.mem_append.mp hx with hx | hx
        · exact hb x hx
        · simp at hx
          subst hx
          exact scoreOf_bounds e.mood
    · rw [if_neg hqk] at hpq
      subst hpq
      exact ⟨hk, l, hm, hne, hb⟩
  · intro p hp
    rw [List.mem_append] at hp
    rcases hp with hp | hp
    · exact h p hp
    · simp at hp
      subst hp
      exact ⟨rfl, [scoreOf e.mood], rfl, by simp, by
        intro x hx
        simp at hx
        subst hx
        exact scoreOf_bounds e.mood⟩

lemma foldl_insertMood_inv (l : List MoodEntry) {acc : List (String × DayBucket)}
    (h : AggRawInv acc) : AggRawInv (l.foldl insertMood acc) := by
  induction l generalizing acc with
  | nil => exact h
  | cons e rest ih => exact ih (insertMood_inv e h)

/-- Every aggregated bucket is keyed by its own date key, holds a non-empty
score list with each score in `[1,5]`, and averages to the mean of that list. -/
lemma aggregate_inv (entries : List MoodEntry) :
    ∀ p ∈ aggregate entries, p.2.dateKey = p.1 ∧
      ∃ l, p.2.moods = some l ∧ l ≠ [] ∧ (∀ x ∈ l, 1 ≤ x ∧ x ≤ 5) ∧
        p.2.avgMood = ((l.sum : Rat) / (l.length : Rat)) := by
  intro p hp
  unfold aggregate computeAverages at hp
  rw [List.mem_map] at hp
  obtain ⟨q, hq, hpq⟩ := hp
  obtain ⟨hk, l, hm, hne, hb⟩ :=
    foldl_insertMood_inv entries (by intro p hp; simp at hp) q hq
  subst hpq
  exact ⟨hk, l, by simp [hm], hne, hb, by simp [hm]⟩

lemma length_le_sum (l : List Nat) (h : ∀ x ∈ l, 1 ≤ x) : l.length ≤ l.sum := by
  induction l with
  | nil => simp
  | cons x rest ih =>
      simp only [List.length_cons, List.sum_cons]
      have h1 := h x (List.mem_cons_self _ _)
      have h2 := ih (fun y hy => h y (List.mem_cons_of_mem _ hy))
      omega

lemma sum_le_five_mul (l : List Nat) (h : ∀ x ∈ l, x ≤ 5) : l.sum ≤ 5 * l.length := by
  induction l with
  | nil => simp
  | cons x rest ih =>
      simp only [List.length_cons, List.sum_cons]
      have h1 := h x (List.mem_cons_self _ _)
      have h2 := ih (fun y hy => h y (List.mem_cons_of_mem _ hy))
      omega

/-- The mean of a non-empty list of scores lying in `[1,5]` lies in `[1,5]`. -/
lemma mean_bounds (l : List Nat) (hne : l ≠ []) (h : ∀ x ∈ l, 1 ≤ x ∧ x ≤ 5) :
    1 ≤ ((l.sum : Rat) / (l.length : Rat)) ∧ ((l.sum : Rat) / (l.length : Rat)) ≤ 5 := by
  have hlen : 0 < l.length := List.length_pos.mpr hne
  have hlenQ : (0 : Rat) < (l.length : Rat) := by exact_mod_cast hlen
  have h1 : l.length ≤ l.sum := length_le_sum l (fun x hx => (h x hx).1)
  have h2 : l.sum ≤ 5 * l.length := sum_le_five_mul l (fun x hx => (h x hx).2)
  constructor
  · rw [le_div_iff₀ hlenQ, one_mul]
    exact_mod_cast h1
  · rw [div_le_iff₀ hlenQ]
    exact_mod_cast h2

lemma buildWindow_length (dailyData : List (String × DayBucket)) (today : Nat) :
    (buildWindow dailyData today).length = 7 := by
  simp [buildWindow, windowDays]

lemma mkWindowBucket_dateKey (dailyData : List (String × DayBucket)) (day : Nat)
    (hinv : ∀ p ∈ dailyData, p.2.dateKey = p.1) :
    (mkWindowBucket dailyData day).dateKey = isoDateKey day := by
  cases h : lookupKey (isoDateKey day) dailyData with
  | none => simp [mkWindowBucket, h]
  | some b =>
      simp only [mkWindowBucket, h]
      exact hinv (isoDateKey day, b) (lookupKey_mem h)

/-- The window days written out: the seven days ending at `today`. -/
lemma windowDays_explicit (today : Nat) :
    windowDays today =
      [today - 6, today - 5, today - 4, today - 3, today - 2, today - 1, today] := rfl

lemma windowDays_getLast (today : Nat) : (windowDays today).getLast? = some today := rfl

/-- The shape of any 7-day window built over a key-consistent aggregation. -/
lemma buildWindow_spec (dailyData : List (String × DayBucket)) (today : Nat)
    (h6 : 6 ≤ today) (hinv : ∀ p ∈ dailyData, p.2.dateKey = p.1) :
    (buildWindow dailyData today).length = 7 ∧
    (buildWindow dailyData today).map DayBucket.dateKey = (windowDays today).map isoDateKey ∧
    List.Pairwise (· < ·) (windowDays today) ∧
    ((buildWindow dailyData today).map DayBucket.dateKey).getLast? = some (isoDateKey today) := by
  have hdays : ∀ days : List Nat,
      ((days.map (mkWindowBucket dailyData)).map DayBucket.dateKey) = days.map isoDateKey := by
    intro days
    induction days with
    | nil => rfl
    | cons d rest ih => simp only [List.map_cons, mkWindowBucket_dateKey dailyData d hinv, ih]
  have hmap : (buildWindow dailyData today).map DayBucket.dateKey
      = (windowDays today).map isoDateKey := hdays (windowDays today)
  refine ⟨buildWindow_length dailyData today, hmap, ?_, ?_⟩
  · rw [windowDays_explicit]
    simp [List.pairwise_cons]
    omega
  · rw [hmap, List.getLast?_map, windowDays_getLast]
    rfl

/-- Any non-empty chart result comes from the live branch of `processChartData`. -/
lemma processChartData_ne_nil (resp : Option RangeResponse) (today : Nat)
    (hne : processChartData resp today ≠ []) :
    ∃ entries : List MoodEntry,
      processChartData resp today = buildWindow (aggregate entries) today := by
  cases resp with
  | none => simp [processChartData] at hne
  | some r =>
      cases hs : r.success with
      | false => simp [processChartData, hs] at hne
      | true =>
          cases hd : r.data with
          | none => simp [processChartData, hs, hd] at hne
          | some entries =>
              by_cases hl : entries.length = 0
              · simp [processChartData, hs, hd, hl] at hne
              · exact ⟨entries, by simp [processChartData, hs, hd, hl]⟩

/-- Folding same-key entries onto a singleton accumulator only ever pushes
scores onto the one existing bucket. -/
lemma foldl_insert_same_key (k : String) :
    ∀ (l : List MoodEntry) (b : DayBucket) (bl : List Nat),
      b.moods = some bl → (∀ e ∈ l, entryKey e = k) →
      l.foldl insertMood [(k, b)] =
        [(k, { b with moods := some (bl ++ l.map (fun e => scoreOf e.mood)) })] := by
  intro l
  induction l with
  | nil =>
      intro b bl hb _
      simp only [List.foldl_nil, List.map_nil, List.append_nil, ← hb]
  | cons e rest ih =>
      intro b bl hb hk
      have hek : entryKey e = k := hk e (List.mem_cons_self _ _)
      have hins : insertMood [(k, b)] e = [(k, pushMood b (scoreOf e.mood))] := by
        simp [insertMood, lookupKey, hek]
      have hpm : (pushMood b (scoreOf e.mood)).moods = some (bl ++ [scoreOf e.mood]) := by
        simp [pushMood, hb]
      rw [List.foldl_cons, hins,
        ih (pushMood b (scoreOf e.mood)) (bl ++ [scoreOf e.mood]) hpm
          (fun e₂ he₂ => hk e₂ (List.mem_cons_of_mem _ he₂))]
      simp [pushMood, List.append_assoc]

/-! ### Claim theorems -/

/-- C4: a non-empty entry list all sharing one `dateKey` aggregates to a
single bucket whose scores are exactly the per-entry `scoreOf` values (so
their count equals the entry count) and whose average is their arithmetic
mean. -/
theorem aggregate_same_dateKey (entries : List MoodEntry) (k : String)
    (hne : entries ≠ []) (hk : ∀ e ∈ entries, entryKey e = k) :
    ∃ b, aggregate entries = [(k, b)] ∧
      b.moods = some (entries.map (fun e => scoreOf e.mood)) ∧
      (b.moods.getD []).length = entries.length ∧
      b.avgMood = ((entries.map (fun e => scoreOf e.mood)).sum : Rat)
        / (entries.length : Rat) := by
  obtain ⟨e, rest, rfl⟩ := List.exists_cons_of_ne_nil hne
  have hek : entryKey e = k := hk e (List.mem_cons_self _ _)
  have h0 : insertMood [] e =
      [(k, { day := weekdayShort e.date, date := monthDayLabel e.date,
             dateKey := k, moods := some [scoreOf e.mood], avgMood := 0 })] := by
    simp [insertMood, lookupKey, hek]
  unfold aggregate
  rw [List.foldl_cons, h0,
    foldl_insert_same_key k rest _ [scoreOf e.mood] rfl
      (fun e₂ he₂ => hk e₂ (List.mem_cons_of_mem _ he₂))]
  simp only [computeAverages, List.map_cons, List.map_nil, Option.getD_some,
    List.singleton_append]
  refine ⟨_, rfl, rfl, ?_, ?_⟩
  · simp
  · simp

/-- Witness for C4: three same-day entries happy, happy, sad on
2024-01-01 (epoch day 19723) yield one bucket with 3 scores and average
`(5+5+2)/3 = 4`. -/
theorem aggregate_same_dateKey_witness :
    (([⟨"happy", 19723⟩, ⟨"happy", 19723⟩, ⟨"sad", 19723⟩] : List MoodEntry) ≠ [] ∧
      (∀ e ∈ ([⟨"happy", 19723⟩, ⟨"happy", 19723⟩, ⟨"sad", 19723⟩] : List MoodEntry),
        entryKey e = "2024-01-01")) ∧
    (∃ b, aggregate [⟨"happy", 19723⟩, ⟨"happy", 19723⟩, ⟨"sad", 19723⟩] = [("2024-01-01", b)] ∧
      b.moods = some (([⟨"happy", 19723⟩, ⟨"happy", 19723⟩, ⟨"sad", 19723⟩] : List MoodEntry).map
        (fun e => scoreOf e.mood)) ∧
      (b.moods.getD []).length
        = ([⟨"happy", 19723⟩, ⟨"happy", 19723⟩, ⟨"sad", 19723⟩] : List MoodEntry).length ∧
      b.avgMood = ((([⟨"happy", 19723⟩, ⟨"happy", 19723⟩, ⟨"sad", 19723⟩] : List MoodEntry).map
          (fun e => scoreOf e.mood)).sum : Rat)
        / (([⟨"happy", 19723⟩, ⟨"happy", 19723⟩, ⟨"sad", 19723⟩] : List MoodEntry).length : Rat)) ∧
    ((([⟨"happy", 19723⟩, ⟨"happy", 19723⟩, ⟨"sad", 19723⟩] : List MoodEntry).map
        (fun e => scoreOf e.mood)).sum : Rat)
      / (([⟨"happy", 19723⟩, ⟨"happy", 19723⟩, ⟨"sad", 19723⟩] : List MoodEntry).length : Rat)
      = 4 :=
  ⟨⟨by decide, by decide⟩,
    aggregate_same_dateKey _ "2024-01-01" (by decide) (by decide),
    by
      have h : (([⟨"happy", 19723⟩, ⟨"happy", 19723⟩, ⟨"sad", 19723⟩] : List MoodEntry).map
          (fun e => scoreOf e.mood)) = [5, 5, 2] := by decide
      rw [h]
      norm_num⟩

/-- C1: whenever the chart data is non-empty, it consists of exactly 7
buckets whose date keys are the ISO keys of the 7 strictly increasing
calendar days ending at today (days with no entries included via
synthesized buckets, never omitted), the last being today's key. -/
theorem processChartData_window (resp : Option RangeResponse) (today : Nat)
    (hne : processChartData resp today ≠ []) (h6 : 6 ≤ today) :
    (processChartData resp today).length = 7 ∧
    (processChartData resp today).map DayBucket.dateKey = (windowDays today).map isoDateKey ∧
    List.Pairwise (· < ·) (windowDays today) ∧
    ((processChartData resp today).map DayBucket.dateKey).getLast? = some (isoDateKey today) := by
  obtain ⟨entries, heq⟩ := processChartData_ne_nil resp today hne
  rw [heq]
  exact buildWindow_spec (aggregate entries) today h6
    (fun p hp => (aggregate_inv entries p hp).1)

/-- Witness for C1: one happy entry on 2024-01-10 (epoch day 19732),
today = 2024-01-10. -/
theorem processChartData_window_witness :
    (processChartData (some ⟨true, some [⟨"happy", 19732⟩]⟩) 19732 ≠ [] ∧ 6 ≤ 19732) ∧
    ((processChartData (some ⟨true, some [⟨"happy", 19732⟩]⟩) 19732).length = 7 ∧
     (processChartData (some ⟨true, some [⟨"happy", 19732⟩]⟩) 19732).map DayBucket.dateKey
       = (windowDays 19732).map isoDateKey ∧
     List.Pairwise (· < ·) (windowDays 19732) ∧
     ((processChartData (some ⟨true, some [⟨"happy", 19732⟩]⟩) 19732).map
        DayBucket.dateKey).getLast? = some (isoDateKey 19732)) :=
  ⟨⟨by decide, by decide⟩,
    processChartData_window (some ⟨true, some [⟨"happy", 19732⟩]⟩) 19732
      (by decide) (by decide)⟩

/-- C8: every bucket the chart pipeline emits satisfies the average
invariant: with a non-empty scores list the average is the mean of the
scores and lies in `[1,5]`; with no scores (absent or empty list) the
average is the sentinel 0, which lies outside `[1,5]` and is therefore
always distinguishable from a real average. -/
theorem processChartData_bucket_invariant (resp : Option RangeResponse) (today : Nat)
    (b : DayBucket) (hb : b ∈ processChartData resp today) :
    (b.moods.getD [] = [] → b.avgMood = 0) ∧
    (b.moods.getD [] ≠ [] →
      b.avgMood = ((b.moods.getD []).sum : Rat) / ((b.moods.getD []).length : Rat) ∧
      1 ≤ b.avgMood ∧ b.avgMood ≤ 5) := by
  have hne : processChartData resp today ≠ [] := by
    intro h
    rw [h] at hb
    exact (List.not_mem_nil b) hb
  obtain ⟨entries, heq⟩ := processChartData_ne_nil resp today hne
  rw [heq] at hb
  unfold buildWindow at hb
  rw [List.mem_map] at hb
  obtain ⟨d, -, rfl⟩ := hb
  cases hl : lookupKey (isoDateKey d) (aggregate entries) with
  | none =>
      have hbb : mkWindowBucket (aggregate entries) d =
          { day := weekdayShort d, date := monthDayLabel d, dateKey := isoDateKey d,
            moods := none, avgMood := 0 } := by
        simp [mkWindowBucket, hl]
      rw [hbb]
      exact ⟨fun _ => rfl, fun hcon => absurd rfl hcon⟩
  | some bb =>
      have hbb : mkWindowBucket (aggregate entries) d = bb := by
        simp [mkWindowBucket, hl]
      rw [hbb]
      obtain ⟨-, l, hm, hlne, hbound, havg⟩ :=
        aggregate_inv entries (isoDateKey d, bb) (lookupKey_mem hl)
      rw [hm]
      simp only [Option.getD_some]
      refine ⟨fun hempty => absurd hempty hlne, fun _ => ⟨havg, ?_, ?_⟩⟩
      · rw [havg]
        exact (mean_bounds l hlne hbound).1
      · rw [havg]
        exact (mean_bounds l hlne hbound).2

/-- Witness for C8: the synthesized (no-data) bucket of 2024-01-09 in a
one-entry chart for 2024-01-10: empty scores force the sentinel average 0. -/
theorem processChartData_bucket_invariant_witness :
    (({ day := "Tue", date := "Jan 9", dateKey := "2024-01-09", moods := none, avgMood := 0 } : DayBucket)
        ∈ processChartData (some ⟨true, some [⟨"happy", 19732⟩]⟩) 19732) ∧
    (({ day := "Tue", date := "Jan 9", dateKey := "2024-01-09", moods := none, avgMood := 0 } : DayBucket).moods.getD [] = []) ∧
    ({ day := "Tue", date := "Jan 9", dateKey := "2024-01-09", moods := none, avgMood := 0 } : DayBucket).avgMood = 0 :=
  ⟨by decide, rfl,
    (processChartData_bucket_invariant (some ⟨true, some [⟨"happy", 19732⟩]⟩) 19732
      { day := "Tue", date := "Jan 9", dateKey := "2024-01-09", moods := none, avgMood := 0 }
      (by decide)).1 rfl⟩

/-- C5: `scoreOf` is total: every string maps to a score in `[1,5]`; the five
known labels map to angry=1, sad=2, neutral=3, calm=4, happy=5; any other
input (including the empty string) falls back to the neutral score 3. -/
theorem scoreOf_total_spec (s : String) :
    (1 ≤ scoreOf s ∧ scoreOf s ≤ 5) ∧
    (scoreOf "angry" = 1 ∧ scoreOf "sad" = 2 ∧ scoreOf "neutral" = 3 ∧
     scoreOf "calm" = 4 ∧ scoreOf "happy" = 5) ∧
    (s ∉ ["happy", "calm", "neutral", "sad", "angry"] → scoreOf s = 3) := by
  refine ⟨scoreOf_bounds s, by decide, ?_⟩
  intro h
  simp only [List.mem_cons, List.not_mem_nil, or_false] at h
  push_neg at h
  obtain ⟨h1, h2, h3, h4, h5⟩ := h
  simp [scoreOf, moodValues, lookupKey, jsOrNat,
    Ne.symm h1, Ne.symm h2, Ne.symm h3, Ne.symm h4, Ne.symm h5]

/-- Witness for C5 at the unknown label `"grumpy"` and the empty string. -/
theorem scoreOf_total_spec_witness :
    ("grumpy" ∉ ["happy", "calm", "neutral", "sad", "angry"]) ∧
    ((1 ≤ scoreOf "grumpy" ∧ scoreOf "grumpy" ≤ 5) ∧ scoreOf "grumpy" = 3) ∧
    ("" ∉ ["happy", "calm", "neutral", "sad", "angry"]) ∧ scoreOf "" = 3 := by
  refine ⟨by decide, ⟨(scoreOf_total_spec "grumpy").1,
    (scoreOf_total_spec "grumpy").2.2 (by decide)⟩, by decide,
    (scoreOf_total_spec "").2.2 (by decide)⟩

/-- C6 counterexample: the recommendation lookups do NOT send an unknown
label to the neutral profile. `getMoodPlaylistName "grumpy"` is the fixed
default `"Your Playlist"`, not the neutral `"Chill Vibes"`, and
`getMoodMovieGenre "grumpy"` is `"Movies"`, not `"Documentary"`. -/
theorem selectProfile_unknown_eq_neutral_cex :
    getMoodPlaylistName "grumpy" = "Your Playlist" ∧
    getMoodPlaylistName "neutral" = "Chill Vibes" ∧
    getMoodMovieGenre "grumpy" = "Movies" ∧
    getMoodMovieGenre "neutral" = "Documentary" ∧
    ¬ (getMoodPlaylistName "grumpy" = getMoodPlaylistName "neutral" ∧
       getMoodMovieGenre "grumpy" = getMoodMovieGenre "neutral") := by decide

/-- C6 amended: for every unrecognized mood label the recommendation
lookups return the fixed defined defaults `"Your Playlist"` and `"Movies"`
(not the neutral profile). -/
theorem selectProfile_unknown_default (s : String)
    (h : s ∉ ["happy", "calm", "sad", "angry", "neutral"]) :
    getMoodPlaylistName s = "Your Playlist" ∧ getMoodMovieGenre s = "Movies" := by
  simp only [List.mem_cons, List.not_mem_nil, or_false] at h
  push_neg at h
  obtain ⟨h1, h2, h3, h4, h5⟩ := h
  constructor <;>
    simp [getMoodPlaylistName, getMoodMovieGenre, playlistNames, genreNames, lookupKey, jsOrStr,
      Ne.symm h1, Ne.symm h2, Ne.symm h3, Ne.symm h4, Ne.symm h5]

/-- Witness for the amended C6 at the unknown label `"grumpy"`. -/
theorem selectProfile_unknown_default_witness :
    ("grumpy" ∉ ["happy", "calm", "sad", "angry", "neutral"]) ∧
    getMoodPlaylistName "grumpy" = "Your Playlist" ∧ getMoodMovieGenre "grumpy" = "Movies" :=
  ⟨by decide, selectProfile_unknown_default "grumpy" (by decide)⟩

/-- C7: the recommendation selection is total and never empty: for every
string input both lookups return a non-empty string. -/
theorem selectProfile_total_nonempty (s : String) :
    getMoodPlaylistName s ≠ "" ∧ getMoodMovieGenre s ≠ "" := by
  constructor
  · unfold getMoodPlaylistName jsOrStr
    cases h : lookupKey s playlistNames with
    | none => simp
    | some v =>
        have hv := lookupKey_mem h
        simp only [playlistNames, List.mem_cons, List.not_mem_nil, or_false,
          Prod.mk.injEq] at hv
        rcases hv with ⟨_, rfl⟩ | ⟨_, rfl⟩ | ⟨_, rfl⟩ | ⟨_, rfl⟩ | ⟨_, rfl⟩ <;> decide
  · unfold getMoodMovieGenre jsOrStr
    cases h : lookupKey s genreNames with
    | none => simp
    | some v =>
        have hv := lookupKey_mem h
        simp only [genreNames, List.mem_cons, List.not_mem_nil, or_false,
          Prod.mk.injEq] at hv
        rcases hv with ⟨_, rfl⟩ | ⟨_, rfl⟩ | ⟨_, rfl⟩ | ⟨_, rfl⟩ | ⟨_, rfl⟩ <;> decide

/-- C2: an empty entries list aggregates to the empty mapping (no error),
and the window builder over that empty aggregation still produces the full
7-day window: for `windowEndDate` 2024-01-10 (epoch day 19732) it returns
7 buckets dated 2024-01-04 through 2024-01-10, all with average 0. -/
theorem buildWindow_empty_entries_window :
    aggregate [] = [] ∧
    (buildWindow (aggregate []) 19732).length = 7 ∧
    (buildWindow (aggregate []) 19732).map DayBucket.dateKey =
      ["2024-01-04", "2024-01-05", "2024-01-06", "2024-01-07",
       "2024-01-08", "2024-01-09", "2024-01-10"] ∧
    (∀ b ∈ buildWindow (aggregate []) 19732, b.avgMood = 0) := by decide

/-- C3 counterexample: in the window built over a day with zero entries
(here: all 7 days of the window ending 2024-01-10, with no entries at all),
every synthesized bucket OMITS the `moods`/scores field (modelled `none`)
rather than carrying a present empty list. -/
theorem buildWindow_scores_field_cex :
    (buildWindow (aggregate []) 19732).map DayBucket.moods = List.replicate 7 none ∧
    (buildWindow (aggregate []) 19732).map DayBucket.moods ≠
      List.replicate 7 (some ([] : List Nat)) := by decide

/-- C3 amended: for every window day with zero input entries, the emitted
bucket has `avgMood = 0` and NO scores field (`moods = none`, the field is
absent, not an empty list), while its weekday and month/day display labels
are still computed for that very date. -/
theorem buildWindow_empty_day_bucket (entries : List MoodEntry) (today j : Nat) (hj : j < 7)
    (h : ∀ e ∈ entries, entryKey e ≠ isoDateKey (today - (6 - j))) :
    (buildWindow (aggregate entries) today)[j]? =
      some { day := weekdayShort (today - (6 - j)), date := monthDayLabel (today - (6 - j)),
             dateKey := isoDateKey (today - (6 - j)), moods := none, avgMood := 0 } := by
  have hnone := lookupKey_aggregate_none entries _ h
  rw [buildWindow, List.getElem?_map, windowDays, List.getElem?_map,
    List.getElem?_range hj]
  simp [mkWindowBucket, hnone]

/-- Witness for the amended C3: no entries at all, window ending
2024-01-10, first bucket (2024-01-04). -/
theorem buildWindow_empty_day_bucket_witness :
    (0 < 7 ∧ ∀ e ∈ ([] : List MoodEntry), entryKey e ≠ isoDateKey (19732 - (6 - 0))) ∧
    (buildWindow (aggregate []) 19732)[0]? =
      some { day := weekdayShort (19732 - (6 - 0)), date := monthDayLabel (19732 - (6 - 0)),
             dateKey := isoDateKey (19732 - (6 - 0)), moods := none, avgMood := 0 } :=
  ⟨⟨by decide, by simp⟩,
    buildWindow_empty_day_bucket [] 19732 0 (by decide) (by simp)⟩

/-- C9: the reducer is a frame for unrecognized action types: any action
whose `type` is none of the seven recognized `MoodActionTypes` strings
leaves the state exactly as it was. -/
theorem moodReducer_unknown_action_frame (s : MoodState) (a : Action)
    (h : a.type ∉ ["SET_USER", "SET_TODAY_MOOD", "SET_THEME", "SET_RECOMMENDATIONS",
                   "SET_PREFERENCES", "UPDATE_PREFERENCES", "RESET"]) :
    moodReducer s a = s := by
  simp only [List.mem_cons, List.not_mem_nil, or_false] at h
  push_neg at h
  obtain ⟨h1, h2, h3, h4, h5, h6, h7⟩ := h
  simp [moodReducer, h1, h2, h3, h4, h5, h6, h7]

/-- Witness for C9 at the unrecognized action type `"LOG_OUT"`. -/
theorem moodReducer_unknown_action_frame_witness :
    ("LOG_OUT" ∉ ["SET_USER", "SET_TODAY_MOOD", "SET_THEME", "SET_RECOMMENDATIONS",
                  "SET_PREFERENCES", "UPDATE_PREFERENCES", "RESET"]) ∧
    moodReducer initialState { type := "LOG_OUT", payload := Payload.nullPayload }
      = initialState :=
  ⟨by decide, moodReducer_unknown_action_frame initialState _ (by decide)⟩

/-- C10: after `SET_TODAY_MOOD`, `currentTheme` is always a defined theme:
the looked-up theme when the payload is non-null and its mood is a known
theme key, and `defaultTheme` otherwise (unknown mood label or null
payload). (`currentTheme : Theme` is total by construction, so it can
never be undefined.) -/
theorem moodReducer_setTodayMood_theme (s : MoodState) (p : Option MoodRecord) :
    (∀ m t, p = some m → lookupKey m.mood themes = some t →
      (moodReducer s { type := "SET_TODAY_MOOD", payload := Payload.moodRecord p }).currentTheme
        = t) ∧
    (∀ m, p = some m → lookupKey m.mood themes = none →
      (moodReducer s { type := "SET_TODAY_MOOD", payload := Payload.moodRecord p }).currentTheme
        = defaultTheme) ∧
    (p = none →
      (moodReducer s { type := "SET_TODAY_MOOD", payload := Payload.moodRecord p }).currentTheme
        = defaultTheme) := by
  refine ⟨?_, ?_, ?_⟩
  · rintro m t rfl hl
    simp [moodReducer, hl]
  · rintro m rfl hl
    simp [moodReducer, hl]
  · rintro rfl
    simp [moodReducer]

/-- Witness for C10: a known mood (`"happy"`), an unknown mood
(`"grumpy"`), and a null payload. -/
theorem moodReducer_setTodayMood_theme_witness :
    (lookupKey "happy" themes = some Theme.happy ∧
      (moodReducer initialState { type := "SET_TODAY_MOOD", payload := Payload.moodRecord (some { mood := "happy" }) }).currentTheme
        = Theme.happy) ∧
    (lookupKey "grumpy" themes = none ∧
      (moodReducer initialState { type := "SET_TODAY_MOOD", payload := Payload.moodRecord (some { mood := "grumpy" }) }).currentTheme
        = defaultTheme) ∧
    (moodReducer initialState { type := "SET_TODAY_MOOD", payload := Payload.moodRecord none }).currentTheme = defaultTheme :=
  ⟨⟨by decide, (moodReducer_setTodayMood_theme initialState (some { mood := "happy" })).1
      { mood := "happy" } Theme.happy rfl (by decide)⟩,
   ⟨by decide, (moodReducer_setTodayMood_theme initialState (some { mood := "grumpy" })).2.1
      { mood := "grumpy" } rfl (by decide)⟩,
   (moodReducer_setTodayMood_theme initialState none).2.2 rfl⟩

end MoodTracker
